import Mathlib

/-!
Shallow embedding of the command-execution orchestrator in `cli/main.rs`
(the Deno CLI entry point): the dispatch table, the pipeline variants for
run / eval / xeval / fetch / info / repl / version / types, the progress
sink, the process-wide logger, and the unified failure path.

External collaborators (the worker / isolate, the module resolver, the
`ansi` styling helpers, the `errors` module) are not under `src/`; they are
modelled as an oracle record `Env` whose fields describe the observable
result of each collaborator call, as the spec describes their contracts.
Each command is translated into a function from that oracle (plus the
parsed flags and argv) to the pair (trace of externally observable
actions, process outcome).
-/

namespace Deno

/-- The two standard process output channels: `stdout` carries program and
info output, `stderr` is the diagnostic stream. -/
inductive StdStream
  | stdout
  | stderr
deriving DecidableEq, Repr

/-- One printed chunk: the stream it goes to, its text, and whether the
printing macro appends a newline (`println!` / `eprintln!` do, `print!` /
`eprint!` do not). -/
structure OutEvent where
  stream : StdStream
  text : String
  newline : Bool
deriving DecidableEq, Repr

/-- Modelled from the spec: the `errors` module is not under src/. The
unified error type `RustOrJsError` distinguishes host-originated failures
(`Rust`) from script-originated failures (`Js`); each variant carries the
message its stringification produces. -/
inductive RustOrJsError
  | Rust (message : String)
  | Js (message : String)
deriving DecidableEq, Repr

/-- Modelled from the spec: the variant-specific stringification used when
the failure path renders the error. -/
def RustOrJsError.render : RustOrJsError → String
  | .Rust message => message
  | .Js message => message

/-- Externally observable actions of one invocation, in order. -/
inductive Act
  | print (e : OutEvent)
  | engineExec (source : String)
  | engineExecMod (url : String) (is_prefetch : Bool)
  | awaitWorker
  | resolveMain
  | urlResolve (specifier : String)
  | debugLog (message : String)
deriving DecidableEq, Repr

/-- A trace is the ordered list of observable actions. -/
abbrev Trace := List Act

/-- Engine actions are the ones executed inside the worker: script
execution, module execution, and awaiting the worker future. -/
def Act.isEngine : Act → Bool
  | .engineExec _ => true
  | .engineExecMod _ _ => true
  | .awaitWorker => true
  | _ => false

/-- How one invocation of the process ends. -/
inductive Outcome
  | exit0
  | exit1
  | panic (message : String)
deriving DecidableEq, Repr

/-- Metadata the external resolver/compiler returns for a module
(`ModuleMetaData`, consumed read-only by `print_file_info`); the media type
field stores the name `msg::enum_name_media_type` would print. -/
structure ModuleMetaData where
  filename : String
  media_type_name : String
  maybe_output_code_filename : Option String
  maybe_source_map_filename : Option String
  module_name : String
deriving DecidableEq, Repr

/-- Dependency record returned by `worker.modules.deps`: the module's own
name and, when available, the flattened list of transitive dependency
names. -/
structure Deps where
  name : String
  deps : Option (List String)
deriving DecidableEq, Repr

/-- Oracle for the external collaborators of one invocation: the
`ThreadSafeState` main-module resolution, `root_specifier_to_url`, the
worker's synchronous script execution and asynchronous module execution,
the settlement result of awaiting the worker future, the metadata fetch
used by `print_file_info`, the dependency-graph lookup, and the `ansi`
bold styling function. Each field records what the collaborator call
observably returns; `none` / `Except.ok` means success. -/
structure Env where
  mainModule : Option String
  toUrl : String → Option String
  exec : String → Option RustOrJsError
  execMod : String → Bool → Option RustOrJsError
  settle : Option RustOrJsError
  meta : String → Except String ModuleMetaData
  depsOf : String → Option Deps
  bold : String → String

/-- The flag fields of `DenoFlags` that `main.rs` reads: the debug-logging
toggle, the v8 flag passthrough, and the xeval replacement variable. -/
structure DenoFlags where
  log_debug : Bool
  v8_flags : Option (List String)
  xeval_replvar : Option String
deriving DecidableEq, Repr

/-- The parsed subcommand (`DenoSubcommand` in `flags.rs`). -/
inductive DenoSubcommand
  | Eval
  | Fetch
  | Info
  | Repl
  | Run
  | Types
  | Version
  | Xeval
deriving DecidableEq, Repr

/-- Message of the Rust panic raised by `Option::unwrap` on `None`
(`state.main_module().unwrap()`, `root_specifier_to_url(..).unwrap()`,
`flags.xeval_replvar.clone().unwrap()`). -/
def optionUnwrapPanic : String := "called Option::unwrap on a None value"

/-- Message of the Rust panic raised by out-of-bounds indexing of
`state.argv[1]`. -/
def argvIndexPanic : String := "index out of bounds: argv has no element 1"

/-- The progress sink installed by `create_worker_and_state` (main.rs lines
148-160): a non-terminal report eprints a carriage-return-prefixed
status line and a clear-to-end-of-line control sequence; a terminal report
eprintlns an empty line only when the progress bar was actually used
(`total > 0`). -/
def progress_callback (done : Bool) (completed total : Nat) (msg : String) :
    List OutEvent :=
  if !done then
    [⟨.stderr, "\r[" ++ toString completed ++ "/" ++ toString total ++ "] " ++ msg,
      false⟩,
     ⟨.stderr, "\x1B[K", false⟩]
  else if done && decide (0 < total) then
    [⟨.stderr, "", true⟩]
  else
    []

/-- The five levels of the `log` crate, most severe first. -/
inductive LogLevel
  | Error
  | Warn
  | Info
  | Debug
  | Trace
deriving DecidableEq, Repr

/-- Numeric value of a level, matching the `log` crate's `LevelFilter`
order (Off = 0, Error = 1, ..., Trace = 5). -/
def LogLevel.toNat : LogLevel → Nat
  | .Error => 1
  | .Warn => 2
  | .Info => 3
  | .Debug => 4
  | .Trace => 5

/-- Display name of a level, as the `log` crate prints it. -/
def LogLevel.name : LogLevel → String
  | .Error => "ERROR"
  | .Warn => "WARN"
  | .Info => "INFO"
  | .Debug => "DEBUG"
  | .Trace => "TRACE"

/-- One log record: level, target module path, optional source line, and
the formatted message. -/
structure LogRecord where
  level : LogLevel
  target : String
  line : Option Nat
  args : String
deriving DecidableEq, Repr

/-- Logger.enabled (main.rs lines 62-64): a record is enabled when its
level is at or below the active maximum level. -/
def Logger.enabled (maxLevel : Nat) (record : LogRecord) : Bool :=
  record.level.toNat ≤ maxLevel

/-- Logger.log (main.rs lines 66-77): an enabled record is printed with
`println!` as `{level} RS - {target}[:line] - {args}`; a disabled record
prints nothing. -/
def Logger.log (maxLevel : Nat) (record : LogRecord) : List OutEvent :=
  if Logger.enabled maxLevel record then
    [⟨.stdout,
      record.level.name ++ " RS - " ++
        (record.target ++
          (match record.line with
           | some n => ":" ++ toString n
           | none => "")) ++
        " - " ++ record.args,
      true⟩]
  else
    []

/-- The maximum log level `main` installs (main.rs lines 314-318):
`LevelFilter::Debug` (4) when the debug flag is set, else
`LevelFilter::Warn` (2). -/
def max_log_level (flags : DenoFlags) : Nat :=
  if flags.log_debug then 4 else 2

/-- The rendering `print_err_and_exit` eprintlns before exiting with
status 1 (main.rs lines 81-84). -/
def errRender (e : RustOrJsError) : Act :=
  .print ⟨.stderr, e.render, true⟩

/-- print_err_and_exit (main.rs lines 81-84): render the unified error to
the diagnostic stream and terminate the process with status 1. -/
def print_err_and_exit (e : RustOrJsError) : Trace × Outcome :=
  ([errRender e], .exit1)

/-- Sequencing for the modelled pipeline: when the first step already
decided the process fate (`js_check` called the failure path), the rest
never runs; otherwise the traces concatenate and the rest decides the
fate. -/
def chain : Trace × Option Outcome → Trace × Outcome → Trace × Outcome
  | (t, some o), _ => (t, o)
  | (t, none), rest => (t ++ rest.1, rest.2)

/-- A `js_check(worker.execute(source))` step: execute the script; on
failure render the error and exit 1, on success continue. -/
def exec_checked (env : Env) (source : String) : Trace × Option Outcome :=
  match env.exec source with
  | some e => ([.engineExec source, errRender e], some .exit1)
  | none => ([.engineExec source], none)

/-- The shared settlement tail `worker.then(|result| { js_check(result);
Ok(()) })`: await the worker future, then route any error through the
failure path. -/
def worker_settlement (env : Env) : Trace × Outcome :=
  match env.settle with
  | some e => ([.awaitWorker, errRender e], .exit1)
  | none => ([.awaitWorker], .exit0)

/-- The fixed runtime bootstrap entry point executed by every pipeline
variant. -/
def denoMainSource : String := "denoMain()"

/-- The debug-log plus URL-resolution actions performed between bootstrap
and module execution in `run_script` and `fetch_or_info_command`. -/
def mod_prep (main_module : String) : Trace :=
  [.debugLog ("main_module " ++ main_module), .urlResolve main_module]

/-- The `root_specifier_to_url(..).unwrap()` plus
`execute_mod_async(..).and_then(..).map_err(print_err_and_exit)` segment:
a failed URL conversion panics, a failed module execution exits through
the failure path, success continues with `onOk`. -/
def execute_mod_checked (env : Env) (main_module : String) (is_prefetch : Bool)
    (onOk : Trace × Outcome) : Trace × Outcome :=
  match env.toUrl main_module with
  | none => (mod_prep main_module, .panic optionUnwrapPanic)
  | some url =>
    match env.execMod url is_prefetch with
    | some e =>
      (mod_prep main_module ++ [.engineExecMod url is_prefetch, errRender e],
       .exit1)
    | none =>
      (mod_prep main_module ++ .engineExecMod url is_prefetch :: onOk.1, onOk.2)

/-- One stdout line holding a dependency name in the deps section. -/
def dep_line (d : String) : OutEvent := ⟨.stdout, d, true⟩

/-- The deps section of `print_file_info` (main.rs lines 129-141): when the
dependency graph is available, print the bold deps header concatenated with
the module's own name, then each transitive dependency name on its own
line; otherwise print the fallback diagnostic line. -/
def deps_lines (bold : String → String) : Option Deps → List OutEvent
  | some d =>
    ⟨.stdout, bold "deps:\n" ++ d.name, true⟩ ::
      (match d.deps with
       | some ds => ds.map dep_line
       | none => [])
  | none =>
    [⟨.stdout, bold "deps:" ++ " cannot retrieve full dependency graph", true⟩]

/-- print_file_info (main.rs lines 96-142): fetch metadata for the module;
on failure print the error on stdout and return; on success print the
local, type, optional compiled, optional map lines, then the deps
section. -/
def print_file_info (env : Env) (url : String) : List OutEvent :=
  match env.meta url with
  | .error err => [⟨.stdout, err, true⟩]
  | .ok out =>
    ⟨.stdout, env.bold "local:" ++ " " ++ out.filename, true⟩ ::
    ⟨.stdout, env.bold "type:" ++ " " ++ out.media_type_name, true⟩ ::
    ((match out.maybe_output_code_filename with
      | some f => [⟨.stdout, env.bold "compiled:" ++ " " ++ f, true⟩]
      | none => []) ++
     (match out.maybe_source_map_filename with
      | some f => [⟨.stdout, env.bold "map:" ++ " " ++ f, true⟩]
      | none => []) ++
     deps_lines env.bold (env.depsOf out.module_name))

/-- types_command (main.rs lines 171-177): print the embedded
type-declaration document (a build-time constant) on stdout. -/
def types_command (embedded_lib : String) : List OutEvent :=
  [⟨.stdout, embedded_lib, true⟩]

/-- The executor: evaluate the single deferred task handed to
`tokio_util::run`. -/
def tokio_util_run (task : Unit → Trace × Outcome) : Trace × Outcome :=
  task ()

/-- run_repl (main.rs lines 260-276), also used by the version subcommand:
bootstrap the runtime, then settle the worker future, both through the
shared failure path. -/
def run_repl (env : Env) (flags : DenoFlags) (argv : List String) :
    Trace × Outcome :=
  chain (exec_checked env denoMainSource) (worker_settlement env)

/-- The synthetic wrapper `eval_command` builds around the literal program
text (main.rs lines 213-220): an async top-level function immediately
invoked. -/
def eval_wrapper (code : String) : String :=
  "async function _topLevelWrapper()\x7b\n        " ++ code ++
    "\n      \x7d\n      _topLevelWrapper();\n      "

/-- eval_command (main.rs lines 209-233): read the program text by
indexing argv at position 1 (a Rust panic when absent), then bootstrap,
execute the wrapper, and settle. -/
def eval_command (env : Env) (flags : DenoFlags) (argv : List String) :
    Trace × Outcome :=
  match argv.get? 1 with
  | none => ([], .panic argvIndexPanic)
  | some code =>
    chain (exec_checked env denoMainSource)
      (chain (exec_checked env (eval_wrapper code)) (worker_settlement env))

/-- The synthetic wrapper `xeval_command` installs as the global callback
(main.rs lines 238-243): an async function with one parameter named after
the replacement variable, assigned to `window._xevalWrapper`. -/
def xeval_wrapper (replvar code : String) : String :=
  "window._xevalWrapper = async function (" ++ replvar ++ ")\x7b\n        " ++
    code ++ "\n      \x7d"

/-- xeval_command (main.rs lines 235-258): unwrap the replacement variable
(a Rust panic when unset), read the program text from argv[1] (a Rust
panic when absent), install the wrapper, then bootstrap, then settle. -/
def xeval_command (env : Env) (flags : DenoFlags) (argv : List String) :
    Trace × Outcome :=
  match flags.xeval_replvar with
  | none => ([], .panic optionUnwrapPanic)
  | some replvar =>
    match argv.get? 1 with
    | none => ([], .panic argvIndexPanic)
    | some code =>
      chain (exec_checked env (xeval_wrapper replvar code))
        (chain (exec_checked env denoMainSource) (worker_settlement env))

/-- The deferred task of run_script (the body of its `lazy` closure plus
the settlement tail, main.rs lines 283-299). -/
def run_script_task (env : Env) (main_module : String) : Trace × Outcome :=
  chain (exec_checked env denoMainSource)
    (execute_mod_checked env main_module false (worker_settlement env))

/-- The build phase of run_script (main.rs lines 278-283): eagerly create
the worker and state and unwrap `state.main_module()` (a Rust panic when
it is `None`), then hand back the still-unevaluated task. -/
def run_script_build (env : Env) :
    Trace × Except Outcome (Unit → Trace × Outcome) :=
  ([.resolveMain],
    match env.mainModule with
    | none => .error (.panic optionUnwrapPanic)
    | some mm => .ok fun _ => run_script_task env mm)

/-- run_script (main.rs lines 278-300): build eagerly, then run the
deferred task on the executor. -/
def run_script (env : Env) (flags : DenoFlags) (argv : List String) :
    Trace × Outcome :=
  match run_script_build env with
  | (t, .error o) => (t, o)
  | (t, .ok task) => (t ++ (tokio_util_run task).1, (tokio_util_run task).2)

/-- The deferred task of fetch_or_info_command (main.rs lines 187-205):
bootstrap, resolve the URL, execute the module with prefetch semantics,
optionally print the file info, then settle. -/
def fetch_or_info_task (env : Env) (main_module : String) (print_info : Bool) :
    Trace × Outcome :=
  chain (exec_checked env denoMainSource)
    (execute_mod_checked env main_module true
      ((if print_info then (print_file_info env main_module).map Act.print
        else []) ++
          (worker_settlement env).1,
       (worker_settlement env).2))

/-- The build phase of fetch_or_info_command (main.rs lines 184-187):
eagerly create the worker and state and unwrap `state.main_module()`,
then hand back the still-unevaluated task. -/
def fetch_or_info_build (env : Env) (print_info : Bool) :
    Trace × Except Outcome (Unit → Trace × Outcome) :=
  ([.resolveMain],
    match env.mainModule with
    | none => .error (.panic optionUnwrapPanic)
    | some mm => .ok fun _ => fetch_or_info_task env mm print_info)

/-- fetch_or_info_command (main.rs lines 179-207): build eagerly, then run
the deferred task on the executor. -/
def fetch_or_info_command (env : Env) (flags : DenoFlags)
    (argv : List String) (print_info : Bool) : Trace × Outcome :=
  match fetch_or_info_build env print_info with
  | (t, .error o) => (t, o)
  | (t, .ok task) => (t ++ (tokio_util_run task).1, (tokio_util_run task).2)

/-- The dispatch table of `main` (main.rs lines 320-329). -/
def main_dispatch (embedded_lib : String) (env : Env) (flags : DenoFlags)
    (argv : List String) : DenoSubcommand → Trace × Outcome
  | .Eval => eval_command env flags argv
  | .Fetch => fetch_or_info_command env flags argv false
  | .Info => fetch_or_info_command env flags argv true
  | .Repl => run_repl env flags argv
  | .Run => run_script env flags argv
  | .Types => ((types_command embedded_lib).map Act.print, .exit0)
  | .Version => run_repl env flags argv
  | .Xeval => xeval_command env flags argv

/-- A concrete oracle on which every collaborator call succeeds except the
metadata fetch, which degrades softly. -/
def envOk : Env where
  mainModule := some "m.ts"
  toUrl := fun _ => some "file:///m.ts"
  exec := fun _ => none
  execMod := fun _ _ => none
  settle := none
  meta := fun _ => .error "Cannot resolve module"
  depsOf := fun _ => none
  bold := fun s => s

/-- A concrete oracle whose bootstrap execution throws a script error. -/
def envBootFail : Env :=
  { envOk with exec := fun _ => some (.Js "Uncaught Error: boom") }

/-- A concrete oracle whose main-module URL conversion fails. -/
def envUrlFail : Env :=
  { envOk with toUrl := fun _ => none }

/-- C3: every non-terminal progress report writes the carriage-return
prefixed `[completed/total] label` status line and the clear-to-end-of-line
sequence to the diagnostic stream, neither call appending a newline; a
terminal report with `total = 0` writes nothing at all; a terminal report
with `total > 0` writes exactly one trailing newline. -/
theorem progress_callback_spec (completed total : Nat) (label : String) :
    progress_callback false completed total label =
      [⟨.stderr,
        "\r[" ++ toString completed ++ "/" ++ toString total ++ "] " ++ label,
        false⟩,
       ⟨.stderr, "\x1B[K", false⟩] ∧
    progress_callback true completed 0 label = [] ∧
    (0 < total → progress_callback true completed total label =
      [⟨.stderr, "", true⟩]) := by
  refine ⟨rfl, rfl, fun h => ?_⟩
  simp [progress_callback, h]

/-- Witness for the terminal-report clause of `progress_callback_spec` at a
concrete input. -/
theorem progress_callback_spec_witness :
    progress_callback true 1 2 "cli/compiler.ts" = [⟨.stderr, "", true⟩] :=
  (progress_callback_spec 1 2 "cli/compiler.ts").2.2 (by decide)

/-- C4 counterexample: a WARN record at the default threshold is printed on
standard output, which is distinct from the diagnostic stream, refuting the
claim that no log record appears on standard output. -/
theorem logging_on_stdout_counterexample :
    Logger.log (max_log_level ⟨false, none, none⟩)
        ⟨.Warn, "deno", none, "boom"⟩ =
      [⟨.stdout, "WARN RS - deno - boom", true⟩] ∧
    StdStream.stdout ≠ StdStream.stderr := by
  exact ⟨by decide, by decide⟩

/-- Every line of the deps section goes to standard output. -/
theorem deps_lines_stdout (bold : String → String) (od : Option Deps) :
    ((deps_lines bold od).all fun ev => ev.stream == StdStream.stdout) = true := by
  rcases od with _ | d
  · rfl
  · rcases d with ⟨name, _ | ds⟩
    · rfl
    · simp [deps_lines, dep_line]

/-- C4 amended: progress lines and unified-error renderings go to the
diagnostic stream, while program/info output, the embedded type document,
and — contrary to the claim — log records at or below the active threshold
go to standard output. -/
theorem output_stream_discipline (done : Bool) (completed total : Nat)
    (label : String) (maxLevel : Nat) (record : LogRecord)
    (e : RustOrJsError) (env : Env) (url embedded_lib : String) :
    ((progress_callback done completed total label).all
      fun ev => ev.stream == StdStream.stderr) = true ∧
    (print_err_and_exit e).1 = [.print ⟨.stderr, e.render, true⟩] ∧
    ((Logger.log maxLevel record).all
      fun ev => ev.stream == StdStream.stdout) = true ∧
    ((print_file_info env url).all
      fun ev => ev.stream == StdStream.stdout) = true ∧
    ((types_command embedded_lib).all
      fun ev => ev.stream == StdStream.stdout) = true := by
  refine ⟨?_, rfl, ?_, ?_, rfl⟩
  · cases done with
    | false => rfl
    | true =>
      by_cases h : 0 < total
      · simp [progress_callback, h]
      · simp [progress_callback, h]
  · by_cases h : Logger.enabled maxLevel record
    · simp [Logger.log, h]
    · simp [Logger.log, h]
  · unfold print_file_info
    rcases h : env.meta url with err | out
    · simp
    · rcases h1 : out.maybe_output_code_filename with _ | f1 <;>
        rcases h2 : out.maybe_source_map_filename with _ | f2 <;>
          simp [h1, h2, deps_lines_stdout]

/-- C6: with the dependency graph available, the deps section prints the
module's own name first (concatenated to the bold header line) and then
every transitive dependency name on its own line, exactly once each and in
the order the resolver supplied; with the graph unavailable it prints the
fallback diagnostic line instead. -/
theorem info_deps_section (bold : String → String) (name : String)
    (ds : List String) (hnd : ds.Nodup) :
    deps_lines bold (some ⟨name, some ds⟩) =
      ⟨.stdout, bold "deps:\n" ++ name, true⟩ :: ds.map dep_line ∧
    (∀ d ∈ ds, (ds.map dep_line).count (dep_line d) = 1) ∧
    deps_lines bold (some ⟨name, none⟩) =
      [⟨.stdout, bold "deps:\n" ++ name, true⟩] ∧
    deps_lines bold none =
      [⟨.stdout, bold "deps:" ++ " cannot retrieve full dependency graph",
        true⟩] := by
  refine ⟨rfl, fun d hd => ?_, rfl, rfl⟩
  have hinj : Function.Injective dep_line := by
    intro a b hab
    simpa [dep_line] using hab
  exact List.count_eq_one_of_mem (hnd.map hinj) (List.mem_map_of_mem _ hd)

/-- Witness for `info_deps_section` at a concrete resolver answer with two
static dependencies. -/
theorem info_deps_section_witness :
    deps_lines (fun s => s) (some ⟨"main.ts", some ["a.ts", "b.ts"]⟩) =
      ⟨.stdout, "deps:\n" ++ "main.ts", true⟩ ::
        ["a.ts", "b.ts"].map dep_line :=
  (info_deps_section (fun s => s) "main.ts" ["a.ts", "b.ts"] (by decide)).1

/-- C5: when the metadata lookup of the info command fails, exactly one
diagnostic line with the lookup error is printed, the pipeline continues
through settlement, no unified error is rendered, and the process exits 0
when everything else succeeds. -/
theorem info_soft_metadata_failure (env : Env) (flags : DenoFlags)
    (argv : List String) (mm url err : String)
    (h1 : env.mainModule = some mm)
    (h2 : env.exec denoMainSource = none)
    (h3 : env.toUrl mm = some url)
    (h4 : env.execMod url true = none)
    (h5 : env.meta mm = .error err)
    (h6 : env.settle = none) :
    fetch_or_info_command env flags argv true =
      ([.resolveMain, .engineExec denoMainSource,
        .debugLog ("main_module " ++ mm), .urlResolve mm,
        .engineExecMod url true, .print ⟨.stdout, err, true⟩, .awaitWorker],
       .exit0) := by
  simp [fetch_or_info_command, fetch_or_info_build, h1, tokio_util_run,
    fetch_or_info_task, chain, exec_checked, h2, execute_mod_checked, h3, h4,
    mod_prep, print_file_info, h5, worker_settlement, h6]

/-- Witness for `info_soft_metadata_failure` on the concrete succeeding
oracle whose metadata fetch degrades. -/
theorem info_soft_metadata_failure_witness :
    fetch_or_info_command envOk ⟨false, none, none⟩ ["m.ts"] true =
      ([.resolveMain, .engineExec denoMainSource,
        .debugLog ("main_module " ++ "m.ts"), .urlResolve "m.ts",
        .engineExecMod "file:///m.ts" true,
        .print ⟨.stdout, "Cannot resolve module", true⟩, .awaitWorker],
       .exit0) :=
  info_soft_metadata_failure envOk ⟨false, none, none⟩ ["m.ts"] "m.ts"
    "file:///m.ts" "Cannot resolve module" rfl rfl rfl rfl rfl rfl

/-- C2 counterexample: at a concrete input, the resolution of argv[0] to
the main module locator runs eagerly at build time and is absent from the
deferred task, so the preparation step is not wholly inside the single
deferred task evaluated when the executor polls it. -/
theorem pipeline_eager_resolution_counterexample :
    (run_script_build envOk).1 = [Act.resolveMain] ∧
    Act.resolveMain ∉ (run_script_task envOk "m.ts").1 := by
  exact ⟨rfl, by decide⟩

/-- C2 amended: all engine work of the run pipeline (bootstrap, module
execution, settlement) is deferred into the single task, and within that
task bootstrap strictly precedes the remaining preparation (URL
resolution), which strictly precedes module execution, which strictly
precedes settlement; the argv[0]-to-main-module resolution, however, runs
eagerly while the task is built. -/
theorem pipeline_deferral_and_order (env : Env) (flags : DenoFlags)
    (argv : List String) (mm url : String)
    (h1 : env.mainModule = some mm)
    (h2 : env.exec denoMainSource = none)
    (h3 : env.toUrl mm = some url)
    (h4 : env.execMod url false = none) :
    ((run_script_build env).1.all fun a => !a.isEngine) = true ∧
    Act.resolveMain ∈ (run_script_build env).1 ∧
    ((fetch_or_info_build env true).1.all fun a => !a.isEngine) = true ∧
    (run_script env flags argv).1 =
      (run_script_build env).1 ++ (run_script_task env mm).1 ∧
    (run_script_task env mm).1 =
      .engineExec denoMainSource :: .debugLog ("main_module " ++ mm) ::
        .urlResolve mm :: .engineExecMod url false ::
          (worker_settlement env).1 := by
  refine ⟨rfl, by simp [run_script_build], rfl, ?_, ?_⟩
  · simp [run_script, run_script_build, h1, tokio_util_run]
  · simp [run_script_task, chain, exec_checked, h2, execute_mod_checked, h3,
      h4, mod_prep]

/-- Witness for `pipeline_deferral_and_order` on the concrete succeeding
oracle. -/
theorem pipeline_deferral_and_order_witness :
    (run_script_task envOk "m.ts").1 =
      .engineExec denoMainSource :: .debugLog ("main_module " ++ "m.ts") ::
        .urlResolve "m.ts" :: .engineExecMod "file:///m.ts" false ::
          (worker_settlement envOk).1 :=
  (pipeline_deferral_and_order envOk ⟨false, none, none⟩ ["m.ts"] "m.ts"
    "file:///m.ts" rfl rfl rfl rfl).2.2.2.2

/-- No module execution action ever occurs in an eval invocation. -/
theorem no_execMod_in_eval (env : Env) (flags : DenoFlags)
    (argv : List String) (u : String) (b : Bool) :
    Act.engineExecMod u b ∉ (eval_command env flags argv).1 := by
  unfold eval_command
  rcases hget : argv.get? 1 with _ | code
  · simp
  · rcases h1 : env.exec denoMainSource with _ | e1 <;>
      rcases h2 : env.exec (eval_wrapper code) with _ | e2 <;>
        rcases h3 : env.settle with _ | e3 <;>
          simp [chain, exec_checked, worker_settlement, errRender, h1, h2, h3]

/-- No module execution action ever occurs in an xeval invocation. -/
theorem no_execMod_in_xeval (env : Env) (flags : DenoFlags)
    (argv : List String) (u : String) (b : Bool) :
    Act.engineExecMod u b ∉ (xeval_command env flags argv).1 := by
  unfold xeval_command
  rcases hv : flags.xeval_replvar with _ | replvar
  · simp
  · rcases hget : argv.get? 1 with _ | code
    · simp
    · rcases h1 : env.exec (xeval_wrapper replvar code) with _ | e1 <;>
        rcases h2 : env.exec denoMainSource with _ | e2 <;>
          rcases h3 : env.settle with _ | e3 <;>
            simp [chain, exec_checked, worker_settlement, errRender,
              h1, h2, h3]

/-- C7: the eval command wraps the literal argv[1] text in the synthetic
immediately-invoked async top-level wrapper and executes that wrapped
source right after bootstrap; and neither eval nor xeval ever performs a
module-import resolution step, for any oracle, flags and argv. -/
theorem eval_wraps_and_never_resolves_modules (env : Env)
    (flags : DenoFlags) (argv : List String) (code : String)
    (hc : argv.get? 1 = some code)
    (hb : env.exec denoMainSource = none) :
    (∃ rest, (eval_command env flags argv).1 =
      .engineExec denoMainSource ::
        .engineExec (eval_wrapper code) :: rest) ∧
    eval_wrapper code =
      "async function _topLevelWrapper()\x7b\n        " ++ code ++
        "\n      \x7d\n      _topLevelWrapper();\n      " ∧
    (∀ (env2 : Env) (flags2 : DenoFlags) (argv2 : List String)
        (u : String) (b : Bool),
      Act.engineExecMod u b ∉ (eval_command env2 flags2 argv2).1 ∧
      Act.engineExecMod u b ∉ (xeval_command env2 flags2 argv2).1) := by
  refine ⟨?_, rfl, fun env2 flags2 argv2 u b =>
    ⟨no_execMod_in_eval env2 flags2 argv2 u b,
     no_execMod_in_xeval env2 flags2 argv2 u b⟩⟩
  rcases h2 : env.exec (eval_wrapper code) with _ | e2
  · refine ⟨(worker_settlement env).1, ?_⟩
    unfold eval_command
    rw [hc]
    simp [chain, exec_checked, hb, h2]
  · refine ⟨[errRender e2], ?_⟩
    unfold eval_command
    rw [hc]
    simp [chain, exec_checked, hb, h2]

/-- Witness for `eval_wraps_and_never_resolves_modules` at a concrete
invocation. -/
theorem eval_wraps_and_never_resolves_modules_witness :
    Act.engineExecMod "file:///m.ts" true ∉
      (eval_command envOk ⟨false, none, none⟩ ["deno", "1+1"]).1 :=
  ((eval_wraps_and_never_resolves_modules envOk ⟨false, none, none⟩
    ["deno", "1+1"] "1+1" rfl rfl).2.2 envOk ⟨false, none, none⟩
    ["deno", "1+1"] "file:///m.ts" true).1

/-- C8: the xeval command wraps the program text in a synthetic async
function with exactly one parameter, named after the configured
replacement variable, and installs it as the global callback as the very
first engine action of the pipeline — strictly before the bootstrap entry
point (which, when the installation succeeds, is the immediately following
action). -/
theorem xeval_wrapper_before_bootstrap (env : Env) (flags : DenoFlags)
    (argv : List String) (replvar code : String)
    (hv : flags.xeval_replvar = some replvar)
    (hc : argv.get? 1 = some code) :
    xeval_wrapper replvar code =
      "window._xevalWrapper = async function (" ++ replvar ++
        ")\x7b\n        " ++ code ++ "\n      \x7d" ∧
    xeval_wrapper replvar code ≠ denoMainSource ∧
    (∃ rest, (xeval_command env flags argv).1 =
      .engineExec (xeval_wrapper replvar code) :: rest ∧
      (env.exec (xeval_wrapper replvar code) = none →
        ∃ rest2, rest = .engineExec denoMainSource :: rest2)) := by
  refine ⟨rfl, ?_, ?_⟩
  · intro h
    have h2 := congrArg String.length h
    have hA : ("window._xevalWrapper = async function (" : String).length =
        39 := by decide
    have hB : (")\x7b\n        " : String).length = 11 := by decide
    have hC : ("\n      \x7d" : String).length = 8 := by decide
    have hD : ("denoMain()" : String).length = 10 := by decide
    simp only [xeval_wrapper, denoMainSource, String.length_append] at h2
    rw [hA, hB, hC, hD] at h2
    omega
  · rcases h1 : env.exec (xeval_wrapper replvar code) with _ | e1
    · rcases h2 : env.exec denoMainSource with _ | e2
      · refine ⟨.engineExec denoMainSource :: (worker_settlement env).1, ?_,
          fun _ => ⟨(worker_settlement env).1, rfl⟩⟩
        unfold xeval_command
        rw [hv, hc]
        simp [chain, exec_checked, h1, h2]
      · refine ⟨.engineExec denoMainSource :: [errRender e2], ?_,
          fun _ => ⟨[errRender e2], rfl⟩⟩
        unfold xeval_command
        rw [hv, hc]
        simp [chain, exec_checked, h1, h2]
    · refine ⟨[errRender e1], ?_,
        fun hnone => by simp [h1] at hnone⟩
      unfold xeval_command
      rw [hv, hc]
      simp [chain, exec_checked, h1]

/-- Witness for `xeval_wrapper_before_bootstrap` at a concrete
invocation. -/
theorem xeval_wrapper_before_bootstrap_witness :
    xeval_wrapper "it" "console.log(it)" ≠ denoMainSource :=
  (xeval_wrapper_before_bootstrap envOk ⟨false, none, some "it"⟩
    ["deno", "console.log(it)"] "it" "console.log(it)" rfl rfl).2.1

/-- C9: the version subcommand is dispatched to exactly the pipeline of the
repl subcommand, so for every oracle, flags and argv the two produce
identical traces and outcomes; and that shared pipeline runs no engine
source other than the bootstrap entry point and never executes a module. -/
theorem version_repl_identical (embedded_lib : String) (env : Env)
    (flags : DenoFlags) (argv : List String) :
    main_dispatch embedded_lib env flags argv .Version =
      main_dispatch embedded_lib env flags argv .Repl ∧
    ((run_repl env flags argv).1.all fun a =>
      match a with
      | .engineExec s => s == denoMainSource
      | .engineExecMod _ _ => false
      | _ => true) = true := by
  refine ⟨rfl, ?_⟩
  rcases h1 : env.exec denoMainSource with _ | e1 <;>
    rcases h2 : env.settle with _ | e2 <;>
      simp [run_repl, chain, exec_checked, worker_settlement, errRender,
        h1, h2]

/-- C10: reading the program text by unguarded indexing means an eval or
xeval invocation with fewer than two argv entries — or an xeval invocation
with the replacement variable unset — panics with no output at all,
instead of exiting through the unified-error rendering path. -/
theorem eval_xeval_unguarded_argv (env : Env) (flags : DenoFlags)
    (argv : List String) :
    (argv.length ≤ 1 →
      eval_command env flags argv = ([], .panic argvIndexPanic)) ∧
    (flags.xeval_replvar = none →
      xeval_command env flags argv = ([], .panic optionUnwrapPanic)) ∧
    (∀ replvar, flags.xeval_replvar = some replvar → argv.length ≤ 1 →
      xeval_command env flags argv = ([], .panic argvIndexPanic)) ∧
    (∀ m : String, Outcome.panic m ≠ Outcome.exit1) := by
  have hget : argv.length ≤ 1 → argv.get? 1 = none := by
    intro h
    exact List.get?_eq_none.mpr h
  refine ⟨fun h => ?_, fun h => ?_, fun replvar hv h => ?_, fun m => by simp⟩
  · unfold eval_command
    rw [hget h]
  · unfold xeval_command
    rw [h]
  · unfold xeval_command
    rw [hv, hget h]

/-- Witness for `eval_xeval_unguarded_argv` at a concrete short argv. -/
theorem eval_xeval_unguarded_argv_witness :
    eval_command envOk ⟨false, none, none⟩ ["deno"] =
      ([], .panic argvIndexPanic) :=
  (eval_xeval_unguarded_argv envOk ⟨false, none, none⟩ ["deno"]).1
    (by decide)

/-- The unified-failure contract of one command result: an exit-1 fate
always ends the trace with a rendering of one of the two unified error
variants on the diagnostic stream (the single failure path), and any panic
carries one of the two modelled Rust panic messages (an unwrap on None or
the unguarded argv index). -/
def RendersAndExits (r : Trace × Outcome) : Prop :=
  (r.2 = .exit1 → ∃ e t, r.1 = t ++ [errRender e]) ∧
  (∀ m, r.2 = .panic m → m = optionUnwrapPanic ∨ m = argvIndexPanic)

/-- Prepending eagerly produced actions preserves the unified-failure
contract. -/
theorem rendersAndExits_prepend (t0 : Trace) (r : Trace × Outcome)
    (h : RendersAndExits r) : RendersAndExits (t0 ++ r.1, r.2) := by
  constructor
  · intro hx
    rcases h.1 hx with ⟨e, t2, ht⟩
    exact ⟨e, t0 ++ t2, by rw [ht, List.append_assoc]⟩
  · exact fun m hm => h.2 m hm

/-- The settlement tail satisfies the unified-failure contract. -/
theorem rendersAndExits_worker_settlement (env : Env) :
    RendersAndExits (worker_settlement env) := by
  unfold RendersAndExits worker_settlement
  rcases h : env.settle with _ | e
  · exact ⟨fun hx => by simp at hx, fun m hm => by simp at hm⟩
  · exact ⟨fun _ => ⟨e, [Act.awaitWorker], rfl⟩, fun m hm => by simp at hm⟩

/-- A `js_check(worker.execute(..))` step either succeeds or decides an
exit-1 fate whose trace ends with the rendered error; it never panics. -/
theorem exec_checked_contract (env : Env) (source : String) :
    ((exec_checked env source).2 = some .exit1 →
      ∃ e t, (exec_checked env source).1 = t ++ [errRender e]) ∧
    (∀ m, (exec_checked env source).2 ≠ some (.panic m)) := by
  rcases h : env.exec source with _ | e <;> simp [exec_checked, h]
  exact ⟨e, [Act.engineExec source], rfl⟩

/-- Sequencing preserves the unified-failure contract when the first step
obeys it. -/
theorem rendersAndExits_chain (s : Trace × Option Outcome)
    (rest : Trace × Outcome)
    (hs1 : s.2 = some .exit1 → ∃ e t, s.1 = t ++ [errRender e])
    (hs2 : ∀ m, s.2 ≠ some (.panic m))
    (hr : RendersAndExits rest) :
    RendersAndExits (chain s rest) := by
  rcases s with ⟨t, _ | o⟩
  · constructor
    · intro hx
      simp [chain] at hx ⊢
      rcases hr.1 hx with ⟨e, t2, ht⟩
      exact ⟨e, t ++ t2, by rw [ht, List.append_assoc]⟩
    · intro m hm
      simp [chain] at hm
      exact hr.2 m hm
  · constructor
    · intro hx
      simp [chain] at hx ⊢
      rcases hs1 (by rw [hx]) with ⟨e, t2, ht⟩
      exact ⟨e, t2, ht⟩
    · intro m hm
      simp [chain] at hm
      exact absurd (by rw [hm]) (hs2 m)

/-- The module-execution segment preserves the unified-failure contract,
with its URL-conversion panic carrying the unwrap message. -/
theorem rendersAndExits_execute_mod (env : Env) (main_module : String)
    (is_prefetch : Bool) (onOk : Trace × Outcome)
    (h : RendersAndExits onOk) :
    RendersAndExits (execute_mod_checked env main_module is_prefetch onOk) := by
  rcases h1 : env.toUrl main_module with _ | url
  · have heq : execute_mod_checked env main_module is_prefetch onOk =
        (mod_prep main_module, .panic optionUnwrapPanic) := by
      simp [execute_mod_checked, h1]
    rw [heq]
    exact ⟨fun hx => by simp at hx,
      fun m hm => Or.inl (by injection hm with h2; exact h2.symm)⟩
  · rcases h2 : env.execMod url is_prefetch with _ | e
    · have heq : execute_mod_checked env main_module is_prefetch onOk =
          (mod_prep main_module ++
            Act.engineExecMod url is_prefetch :: onOk.1, onOk.2) := by
        simp [execute_mod_checked, h1, h2]
      rw [heq]
      refine ⟨fun hx => ?_, fun m hm => h.2 m hm⟩
      rcases h.1 hx with ⟨e, t2, ht⟩
      exact ⟨e, mod_prep main_module ++
        Act.engineExecMod url is_prefetch :: t2, by rw [ht]; simp⟩
    · have heq : execute_mod_checked env main_module is_prefetch onOk =
          (mod_prep main_module ++
            [Act.engineExecMod url is_prefetch, errRender e], .exit1) := by
        simp [execute_mod_checked, h1, h2]
      rw [heq]
      exact ⟨fun _ => ⟨e, mod_prep main_module ++
          [Act.engineExecMod url is_prefetch], by simp⟩,
        fun m hm => by simp at hm⟩

/-- The repl (and version) pipeline obeys the unified-failure contract. -/
theorem rendersAndExits_run_repl (env : Env) (flags : DenoFlags)
    (argv : List String) : RendersAndExits (run_repl env flags argv) :=
  rendersAndExits_chain _ _ (exec_checked_contract env denoMainSource).1
    (exec_checked_contract env denoMainSource).2
    (rendersAndExits_worker_settlement env)

/-- The eval pipeline obeys the unified-failure contract. -/
theorem rendersAndExits_eval (env : Env) (flags : DenoFlags)
    (argv : List String) : RendersAndExits (eval_command env flags argv) := by
  unfold eval_command
  rcases h : argv.get? 1 with _ | code
  · exact ⟨fun hx => by simp at hx,
      fun m hm => Or.inr (by injection hm with h2; exact h2.symm)⟩
  · exact rendersAndExits_chain _ _
      (exec_checked_contract env denoMainSource).1
      (exec_checked_contract env denoMainSource).2
      (rendersAndExits_chain _ _
        (exec_checked_contract env (eval_wrapper code)).1
        (exec_checked_contract env (eval_wrapper code)).2
        (rendersAndExits_worker_settlement env))

/-- The xeval pipeline obeys the unified-failure contract. -/
theorem rendersAndExits_xeval (env : Env) (flags : DenoFlags)
    (argv : List String) : RendersAndExits (xeval_command env flags argv) := by
  unfold xeval_command
  rcases hv : flags.xeval_replvar with _ | replvar
  · exact ⟨fun hx => by simp at hx,
      fun m hm => Or.inl (by injection hm with h2; exact h2.symm)⟩
  · rcases h : argv.get? 1 with _ | code
    · exact ⟨fun hx => by simp at hx,
        fun m hm => Or.inr (by injection hm with h2; exact h2.symm)⟩
    · exact rendersAndExits_chain _ _
        (exec_checked_contract env (xeval_wrapper replvar code)).1
        (exec_checked_contract env (xeval_wrapper replvar code)).2
        (rendersAndExits_chain _ _
          (exec_checked_contract env denoMainSource).1
          (exec_checked_contract env denoMainSource).2
          (rendersAndExits_worker_settlement env))

/-- The deferred task of the run pipeline obeys the unified-failure
contract. -/
theorem rendersAndExits_run_script_task (env : Env) (main_module : String) :
    RendersAndExits (run_script_task env main_module) :=
  rendersAndExits_chain _ _ (exec_checked_contract env denoMainSource).1
    (exec_checked_contract env denoMainSource).2
    (rendersAndExits_execute_mod env main_module false _
      (rendersAndExits_worker_settlement env))

/-- The run pipeline obeys the unified-failure contract. -/
theorem rendersAndExits_run_script (env : Env) (flags : DenoFlags)
    (argv : List String) : RendersAndExits (run_script env flags argv) := by
  unfold run_script run_script_build
  rcases h : env.mainModule with _ | mm
  · exact ⟨fun hx => Outcome.noConfusion hx,
      fun m hm => Or.inl (Outcome.noConfusion hm fun h2 => h2.symm)⟩
  · exact rendersAndExits_prepend [Act.resolveMain] _
      (rendersAndExits_run_script_task env mm)

/-- The deferred task of the fetch/info pipeline obeys the unified-failure
contract. -/
theorem rendersAndExits_fetch_or_info_task (env : Env)
    (main_module : String) (print_info : Bool) :
    RendersAndExits (fetch_or_info_task env main_module print_info) :=
  rendersAndExits_chain _ _ (exec_checked_contract env denoMainSource).1
    (exec_checked_contract env denoMainSource).2
    (rendersAndExits_execute_mod env main_module true _
      (rendersAndExits_prepend _ _ (rendersAndExits_worker_settlement env)))

/-- The fetch/info pipeline obeys the unified-failure contract. -/
theorem rendersAndExits_fetch_or_info (env : Env) (flags : DenoFlags)
    (argv : List String) (print_info : Bool) :
    RendersAndExits (fetch_or_info_command env flags argv print_info) := by
  unfold fetch_or_info_command fetch_or_info_build
  rcases h : env.mainModule with _ | mm
  · exact ⟨fun hx => Outcome.noConfusion hx,
      fun m hm => Or.inl (Outcome.noConfusion hm fun h2 => h2.symm)⟩
  · exact rendersAndExits_prepend [Act.resolveMain] _
      (rendersAndExits_fetch_or_info_task env mm print_info)

/-- C1 amended: for every pipeline variant and every collaborator oracle,
whenever the invocation exits with status 1 the trace ends with a
rendering of one of the two unified error variants on the diagnostic
stream — the single failure path; the only failures that escape that path
are the Rust panics of the unwrap and argv-indexing sites, which do not
reach the renderer. -/
theorem unified_error_exit_contract (embedded_lib : String) (env : Env)
    (flags : DenoFlags) (argv : List String) (sub : DenoSubcommand) :
    RendersAndExits (main_dispatch embedded_lib env flags argv sub) := by
  cases sub with
  | Eval => exact rendersAndExits_eval env flags argv
  | Fetch => exact rendersAndExits_fetch_or_info env flags argv false
  | Info => exact rendersAndExits_fetch_or_info env flags argv true
  | Repl => exact rendersAndExits_run_repl env flags argv
  | Run => exact rendersAndExits_run_script env flags argv
  | Types => exact ⟨fun hx => Outcome.noConfusion hx,
      fun m hm => Outcome.noConfusion hm⟩
  | Version => exact rendersAndExits_run_repl env flags argv
  | Xeval => exact rendersAndExits_xeval env flags argv

/-- C1 counterexample: with a concrete oracle whose URL conversion fails,
the run pipeline's deferred task ends in a Rust panic — a failure crossing
the pipeline boundary that is neither unified error variant and is not
routed through the render-and-exit-1 failure path. -/
theorem unified_error_exit_counterexample :
    (run_script envUrlFail ⟨false, none, none⟩ ["m.ts"]).2 =
      .panic optionUnwrapPanic ∧
    (run_script_task envUrlFail "m.ts").2 = .panic optionUnwrapPanic ∧
    Outcome.panic optionUnwrapPanic ≠ Outcome.exit1 := by
  exact ⟨rfl, rfl, by decide⟩

/-- Witness for `unified_error_exit_contract` on a concrete oracle whose
bootstrap throws. -/
theorem unified_error_exit_contract_witness :
    RendersAndExits
      (main_dispatch "" envBootFail ⟨false, none, none⟩ []
        DenoSubcommand.Repl) :=
  unified_error_exit_contract "" envBootFail ⟨false, none, none⟩ []
    DenoSubcommand.Repl

end Deno
